import Mathlib

/-!
Verification of the Occlum LibOS ECall gateway (`src/libos/src/entry.rs`).

The gateway code is shallowly embedded: the global mutable statics
(`HAS_INIT`, `INSTANCE_DIR`, `ENCLAVE_PATH`, the log configuration installed
by `util::log::init`) become an explicit `GatewayState` record threaded through
the entry functions; external collaborators (the spawn primitive, the task
executor, the filesystem sync, the `HostStdioFds` constructor) become oracle
parameters returning an `Outcome`; Rust `std::path` component semantics on
Unix are reimplemented over `List Char`.
-/

namespace Occlum

instance {ε α : Type} [DecidableEq ε] [DecidableEq α] : DecidableEq (Except ε α) :=
  fun x y =>
    match x, y with
    | .ok a, .ok b =>
      if h : a = b then isTrue (by rw [h]) else isFalse (by simp [h])
    | .ok _, .error _ => isFalse (by simp)
    | .error _, .ok _ => isFalse (by simp)
    | .error e, .error f =>
      if h : e = f then isTrue (by rw [h]) else isFalse (by simp [h])

/-- POSIX errno values used by the gateway.
Modelled from the spec: the `Errno` enum of the errno crate is not among the
embedded sources; the spec states errors are POSIX-style error numbers, so the
constructors carry the standard Linux values via `Errno.toI32`. -/
inductive Errno
  | EPERM
  | ENOENT
  | EINTR
  | EAGAIN
  | ENOMEM
  | EACCES
  | EFAULT
  | EEXIST
  | EINVAL
  | ENOSYS
deriving DecidableEq, Repr

/-- The numeric value of each errno (standard Linux numbering). -/
def Errno.toI32 : Errno → Int
  | .EPERM => 1
  | .ENOENT => 2
  | .EINTR => 4
  | .EAGAIN => 11
  | .ENOMEM => 12
  | .EACCES => 13
  | .EFAULT => 14
  | .EEXIST => 17
  | .EINVAL => 22
  | .ENOSYS => 38

/-- The `ecall_errno!` macro of entry.rs: an errno rendered as a negative
ECall status. -/
def ecall_errno (e : Errno) : Int := -(e.toI32)

/-- Splitting a character list on the separator character, exactly as
`str::split` on a single separator: `""` gives `[[]]`, `"/"` gives
`[[], []]`, `"a/b"` gives `[[a], [b]]`. -/
def splitSlash : List Char → List (List Char)
  | [] => [[]]
  | c :: rest =>
    if c = '/' then [] :: splitSlash rest
    else
      match splitSlash rest with
      | [] => [[c]]
      | piece :: pieces => (c :: piece) :: pieces

/-- A Unix path component, as in Rust `std::path::Component` (the `Prefix`
variant is Windows-only and cannot arise on Unix). -/
inductive Component
  | rootDir
  | curDir
  | parentDir
  | normal (name : List Char)
deriving DecidableEq, Repr

/-- A non-empty, non-`"."` piece becomes either `ParentDir` or a `Normal`
component. -/
def pieceToComponent (piece : List Char) : Component :=
  if piece = ['.', '.'] then .parentDir else .normal piece

/-- Body components of a path: empty pieces (from repeated or trailing
separators) and `"."` pieces are normalized away, as Rust `Components` does
everywhere except at the very start of a relative path. -/
def bodyComponents (pieces : List (List Char)) : List Component :=
  (pieces.filter (fun piece => decide (piece ≠ [] ∧ piece ≠ ['.']))).map
    pieceToComponent

/-- Rust `Path::components` on Unix: a leading separator yields `RootDir`
(repeated leading separators collapse into it); a leading `"."` of a relative
path is kept as `CurDir`; all other `"."` and empty pieces are dropped. -/
def pathComponents (p : String) : List Component :=
  match p.data with
  | '/' :: rest => .rootDir :: bodyComponents (splitSlash rest)
  | chars =>
    match splitSlash chars with
    | ['.'] :: rest => .curDir :: bodyComponents rest
    | pieces => bodyComponents pieces

/-- Rust `Path::is_absolute` on Unix: the path has a root, i.e. begins with a
separator. -/
def isAbsolute (p : String) : Bool :=
  match p.data with
  | '/' :: _ => true
  | _ => false

/-- Whether any component of the path is the parent-directory component
`".."` (the `has_parent_component` check of `validate_program_path`). -/
def hasParentComponent (p : String) : Bool :=
  (pathComponents p).any (fun c => decide (c = .parentDir))

/-- Rust `Path::starts_with`: the components of `pre` are a prefix of the
components of `p`. -/
def startsWithPath (p pre : String) : Bool :=
  (pathComponents pre).isPrefixOf (pathComponents p)

/-- `validate_program_path` of entry.rs: the entry-point policy gate, with
the configured `entry_points` allow-list made an explicit argument (the
configuration loader is an external collaborator). -/
def validate_program_path (entry_points : List String) (target_path : String) :
    Except Errno Unit :=
  if ¬ isAbsolute target_path then .error .EINVAL
  else if hasParentComponent target_path then .error .EINVAL
  else if entry_points.any (fun pre => startsWithPath target_path pre) then
    .ok ()
  else .error .EACCES

/-- Rust `Path::file_name`: the last component when it is a `Normal`
component, and `none` otherwise (root path, empty path, or a path ending in
`".."` or `"."`). -/
def fileName (p : String) : Option String :=
  match (pathComponents p).getLast? with
  | some (.normal name) => some (String.mk name)
  | _ => none

/-- The verbosity levels of the `log` crate's `LevelFilter` (an external
collaborator of entry.rs; the ordering of constructors is immaterial here). -/
inductive LevelFilter
  | Off
  | Error
  | Warn
  | Info
  | Debug
  | Trace
deriving DecidableEq, Repr

/-- A host-supplied C string crossing the ECall boundary: a null pointer, a
null-terminated byte sequence that is not valid UTF-8, or a decoded UTF-8
string (which by construction of C strings carries no interior NUL byte). -/
inductive HostString
  | null
  | invalidUtf8
  | utf8 (s : String)
deriving DecidableEq, Repr

/-- Character-wise lowercasing, the model of `str::to_lowercase` (which
coincides with it on the ASCII keywords the gateway compares against). -/
def lowerString (s : String) : String := String.mk (s.data.map Char.toLower)

/-- The keyword table inside `parse_log_level`, written as the same
first-match cascade the Rust `match` compiles to. -/
def levelFromString (t : String) : LevelFilter :=
  if t = "off" then .Off
  else if t = "panic" then .Error
  else if t = "fatal" then .Error
  else if t = "error" then .Error
  else if t = "warning" then .Warn
  else if t = "warn" then .Warn
  else if t = "info" then .Info
  else if t = "debug" then .Debug
  else if t = "trace" then .Trace
  else .Off

/-- `parse_log_level` of entry.rs: a null pointer yields the default level
`Off`; a non-UTF-8 byte string fails with `EINVAL`; otherwise the lowercased
string is looked up in the keyword table, defaulting to `Off`. -/
def parse_log_level (level_chars : HostString) : Except Errno LevelFilter :=
  match level_chars with
  | .null => .ok .Off
  | .invalidUtf8 => .error .EINVAL
  | .utf8 s => .ok (levelFromString (lowerString s))

/-- The host stdio file-descriptor bindings; entry.rs treats the struct as
opaque and hands it to the spawn primitive, so three raw descriptors
suffice. -/
structure HostStdioFds where
  stdin_fd : Int
  stdout_fd : Int
  stderr_fd : Int
deriving DecidableEq, Repr

/-- Modelled from the spec: `clone_cstrings_safely` (util::mem_util, not
among the embedded sources) copies every pointed-to string of the
null-terminated host argument vector into owned storage; a malformed entry
anywhere in the vector fails the whole call and no partial result is
retained. -/
def clone_cstrings_safely : List HostString → Except Errno (List String)
  | [] => .ok []
  | .utf8 s :: rest =>
    match clone_cstrings_safely rest with
    | .ok cloned => .ok (s :: cloned)
    | .error e => .error e
  | _ :: _ => .error .EINVAL

/-- `parse_arguments` of entry.rs: decode the program path (null pointer or
non-UTF-8 data fail with `EINVAL`), extract its file-name component as
`argv[0]` (`EINVAL` when absent), clone the host argument vector, prepend the
program name, and validate the stdio struct via its constructor (modelled as
an oracle result, `HostStdioFds::from_user` being external). -/
def parse_arguments (path_ptr : HostString) (argv : List HostString)
    (stdio_from_user : Except Errno HostStdioFds) :
    Except Errno (String × List String × HostStdioFds) :=
  match path_ptr with
  | .null => .error .EINVAL
  | .invalidUtf8 => .error .EINVAL
  | .utf8 path_string =>
    match fileName path_string with
    | none => .error .EINVAL
    | some program =>
      match clone_cstrings_safely argv with
      | .error e => .error e
      | .ok args =>
        match stdio_from_user with
        | .error e => .error e
        | .ok fds => .ok (path_string, program :: args, fds)

/-- The outcome of running external trusted-side code under the
fault-containment wrapper: a value, an ordinary error carrying its errno, or
an internal fault (a Rust panic). -/
inductive Outcome (α : Type)
  | ok (value : α)
  | err (e : Errno)
  | fault
deriving DecidableEq, Repr

/-- The in-enclave gateway state held in the mutable statics of entry.rs:
the `HAS_INIT` atomic flag, `INSTANCE_DIR`, `ENCLAVE_PATH`, and the level
installed into the log infrastructure by `util::log::init`. -/
structure GatewayState where
  hasInit : Bool
  instanceDir : String
  enclavePath : String
  logConfig : Option LevelFilter
deriving DecidableEq, Repr

/-- The state at enclave load, before any ECall. -/
def GatewayState.initial : GatewayState :=
  { hasInit := false, instanceDir := "", enclavePath := "", logConfig := none }

/-- `occlum_ecall_init` of entry.rs as a state transition. `allowDebug` is
the result of the external `sgx_allow_debug` capability probe. The result is
`none` when the call panics (the `assert!` on a null `instance_dir`, or the
`to_str().unwrap()` on non-UTF-8 `instance_dir` inside the once-block), and
`some (status, newState)` otherwise. -/
def occlum_ecall_init (allowDebug : Bool) (log_level instance_dir : HostString)
    (st : GatewayState) : Option (Int × GatewayState) :=
  if st.hasInit = true then some (ecall_errno .EEXIST, st)
  else if instance_dir = .null then none
  else
    match parse_log_level log_level with
    | .error _ => some (ecall_errno .EINVAL, st)
    | .ok input_log_level =>
      let log_level := if allowDebug then input_log_level else LevelFilter.Off
      match instance_dir with
      | .utf8 dir_str =>
        some (0,
          { hasInit := true
            instanceDir := dir_str
            enclavePath := dir_str ++ "/build/lib/libocclum-libos.signed.so"
            logConfig := some log_level })
      | _ => none

/-- A `pid_t` (`u32` in this repository) cast with Rust `as i32`: two's
complement reinterpretation of the low 32 bits. -/
def i32OfU32 (n : Nat) : Int :=
  if n % 4294967296 < 2147483648 then ((n % 4294967296 : Nat) : Int)
  else ((n % 4294967296 : Nat) : Int) - 4294967296

/-- `do_new_process` of entry.rs: validate the program path, then delegate to
the external `process::do_spawn_without_exec` (the `spawn` oracle, given the
validated path, argument list and stdio bindings; the environment comes from
configuration and the parent is the idle process, both outside this core). -/
def do_new_process (entry_points : List String)
    (spawn : String → List String → HostStdioFds → Outcome Nat)
    (program_path : String) (argv : List String)
    (host_stdio_fds : HostStdioFds) : Outcome Nat :=
  match validate_program_path entry_points program_path with
  | .error e => .err e
  | .ok _ => spawn program_path argv host_stdio_fds

/-- `occlum_ecall_new_process` of entry.rs: reject with `EAGAIN` before
initialization; parse and validate the untrusted arguments, returning the
parse errno on failure; then run `do_new_process` under `catch_unwind`,
mapping a success to the pid cast to `i32`, an ordinary error to its negated
errno, and a panic to `-EFAULT`. -/
def occlum_ecall_new_process
    (spawn : String → List String → HostStdioFds → Outcome Nat)
    (entry_points : List String) (path_buf : HostString)
    (argv : List HostString) (stdio_from_user : Except Errno HostStdioFds)
    (st : GatewayState) : Int :=
  if st.hasInit = false then ecall_errno .EAGAIN
  else
    match parse_arguments path_buf argv stdio_from_user with
    | .error e => ecall_errno e
    | .ok (path, args, host_stdio_fds) =>
      match do_new_process entry_points spawn path args host_stdio_fds with
      | .ok pid => i32OfU32 pid
      | .err e => ecall_errno e
      | .fault => ecall_errno .EFAULT

/-- `do_exec_thread` of entry.rs: run the external task executor (the `exec`
oracle), then force a sync of the root filesystem (the `sync` oracle), and
return the raw exit status. An error or panic in either step propagates. -/
def do_exec_thread (exec : Int → Int → Outcome Int) (sync : Outcome Unit)
    (libos_tid host_tid : Int) : Outcome Int :=
  match exec libos_tid host_tid with
  | .err e => .err e
  | .fault => .fault
  | .ok status =>
    match sync with
    | .err e => .err e
    | .fault => .fault
    | .ok _ => .ok status

/-- `occlum_ecall_exec_thread` of entry.rs: reject with `EAGAIN` before
initialization, then run `do_exec_thread` under `catch_unwind`, mapping a
success to the raw exit status, an ordinary error to its negated errno, and a
panic to `-EFAULT`. -/
def occlum_ecall_exec_thread (exec : Int → Int → Outcome Int)
    (sync : Outcome Unit) (libos_pid host_tid : Int) (st : GatewayState) :
    Int :=
  if st.hasInit = false then ecall_errno .EAGAIN
  else
    match do_exec_thread exec sync libos_pid host_tid with
    | .ok status => status
    | .err e => ecall_errno e
    | .fault => ecall_errno .EFAULT

/-! ## Helper lemmas -/

/-- Every ECall errno status is strictly negative. -/
theorem ecall_errno_neg (e : Errno) : ecall_errno e < 0 := by
  cases e <;> decide

/-- A status of `0` is never an errno status. -/
theorem ecall_errno_ne_zero (e : Errno) : ecall_errno e ≠ 0 := by
  cases e <;> decide

/-- Cloning a vector of well-formed UTF-8 host strings returns exactly the
original strings in order. -/
theorem clone_cstrings_safely_utf8 (argvS : List String) :
    clone_cstrings_safely (argvS.map .utf8) = .ok argvS := by
  induction argvS with
  | nil => rfl
  | cons s rest ih => simp [clone_cstrings_safely, ih]

/-- A successful `occlum_ecall_init` leaves the readiness flag set. -/
theorem init_success_hasInit (allowDebug : Bool)
    (log_level instance_dir : HostString) (st0 st1 : GatewayState)
    (h : occlum_ecall_init allowDebug log_level instance_dir st0 =
      some (0, st1)) : st1.hasInit = true := by
  unfold occlum_ecall_init at h
  by_cases h0 : st0.hasInit = true
  · simp [h0, ecall_errno, Errno.toI32] at h
  · cases hdir : instance_dir with
    | null => simp [hdir, h0] at h
    | invalidUtf8 =>
      rw [hdir] at h
      cases hll : parse_log_level log_level <;>
        simp [hll, h0, ecall_errno, Errno.toI32] at h
    | utf8 d =>
      rw [hdir] at h
      cases hll : parse_log_level log_level with
      | error e => simp [hll, h0, ecall_errno, Errno.toI32] at h
      | ok lvl =>
        simp [hll, h0] at h
        rw [← h]

/-! ## Claims -/

/-- C1: `validate_program_path` accepts a path `P` iff `P` is absolute, has
no `..` component, and some allow-list entry is a structural
(component-wise) prefix of it; the checks run in that fixed order, the first
failing one deciding the error: non-absolute gives `EINVAL`, a `..`
component gives `EINVAL`, and no matching allow-list entry gives `EACCES`. -/
theorem C1_path_gate (eps : List String) (p : String) :
    (validate_program_path eps p = .ok () ↔
      (isAbsolute p = true ∧ hasParentComponent p = false ∧
        ∃ pre ∈ eps, startsWithPath p pre = true)) ∧
    (isAbsolute p = false → validate_program_path eps p = .error .EINVAL) ∧
    (isAbsolute p = true → hasParentComponent p = true →
      validate_program_path eps p = .error .EINVAL) ∧
    (isAbsolute p = true → hasParentComponent p = false →
      (∀ pre ∈ eps, startsWithPath p pre = false) →
      validate_program_path eps p = .error .EACCES) := by
  unfold validate_program_path
  cases habs : isAbsolute p <;> cases hpar : hasParentComponent p <;>
    cases hany : eps.any (fun pre => startsWithPath p pre) <;>
      simp_all [List.any_eq_true]

/-- C1 witness: the gate evaluated on the spec's own examples with allow-list
`["/bin"]`: a relative path and a traversal path fail with `EINVAL`, a
non-allow-listed absolute path fails with `EACCES`, and `/bin/sh` passes. -/
theorem C1_path_gate_witness :
    validate_program_path ["/bin"] "bin/sh" = .error .EINVAL ∧
    validate_program_path ["/bin"] "/bin/../etc/passwd" = .error .EINVAL ∧
    validate_program_path ["/bin"] "/sbin/sh" = .error .EACCES ∧
    validate_program_path ["/bin"] "/bin/sh" = .ok () :=
  ⟨(C1_path_gate ["/bin"] "bin/sh").2.1 (by decide),
   (C1_path_gate ["/bin"] "/bin/../etc/passwd").2.2.1 (by decide) (by decide),
   (C1_path_gate ["/bin"] "/sbin/sh").2.2.2 (by decide) (by decide)
     (by decide),
   ((C1_path_gate ["/bin"] "/bin/sh").1).2
     ⟨by decide, by decide, "/bin", by decide, by decide⟩⟩

/-- C2: before any successful init (`hasInit = false`), `new_process` and
`exec_thread` return `-EAGAIN` for every argument and every behaviour of the
external primitives — in particular no parsing, validation, bootstrap or
thread execution influences the result. -/
theorem C2_uninitialized_eagain
    (spawn : String → List String → HostStdioFds → Outcome Nat)
    (entry_points : List String) (path_buf : HostString)
    (argv : List HostString) (stdio_from_user : Except Errno HostStdioFds)
    (exec : Int → Int → Outcome Int) (sync : Outcome Unit)
    (libos_pid host_tid : Int) (st : GatewayState)
    (h : st.hasInit = false) :
    occlum_ecall_new_process spawn entry_points path_buf argv stdio_from_user
        st = ecall_errno .EAGAIN ∧
    occlum_ecall_exec_thread exec sync libos_pid host_tid st =
      ecall_errno .EAGAIN := by
  constructor
  · unfold occlum_ecall_new_process
    simp [h]
  · unfold occlum_ecall_exec_thread
    simp [h]

/-- C2 witness: with everything well-formed (a valid path, valid arguments,
a spawn primitive that would succeed), the fresh gateway still answers
`-EAGAIN` on both calls. -/
theorem C2_uninitialized_eagain_witness :
    occlum_ecall_new_process (fun _ _ _ => .ok 5) ["/bin"] (.utf8 "/bin/sh")
        [.utf8 "-l"] (.ok ⟨0, 1, 2⟩) GatewayState.initial =
      ecall_errno .EAGAIN ∧
    occlum_ecall_exec_thread (fun _ _ => .ok 0) (.ok ()) 5 77
        GatewayState.initial = ecall_errno .EAGAIN :=
  C2_uninitialized_eagain (fun _ _ _ => .ok 5) ["/bin"] (.utf8 "/bin/sh")
    [.utf8 "-l"] (.ok ⟨0, 1, 2⟩) (fun _ _ => .ok 0) (.ok ()) 5 77
    GatewayState.initial (by decide)

/-- C3: once a call to `occlum_ecall_init` has succeeded (returned `0`,
producing state `st1`), every later `init` call, with any arguments and any
debug-capability reading, returns `-EEXIST` and leaves the whole gateway
state (`st1`) unchanged. -/
theorem C3_reinit_eexist (allowDebug : Bool)
    (log_level instance_dir : HostString) (st0 st1 : GatewayState)
    (h : occlum_ecall_init allowDebug log_level instance_dir st0 =
      some (0, st1))
    (allowDebug2 : Bool) (log_level2 instance_dir2 : HostString) :
    occlum_ecall_init allowDebug2 log_level2 instance_dir2 st1 =
      some (ecall_errno .EEXIST, st1) := by
  have h1 := init_success_hasInit allowDebug log_level instance_dir st0 st1 h
  unfold occlum_ecall_init
  simp [h1]

/-- C3 witness: a concrete successful init from the initial state, followed
by a second init with different arguments, which reports `-EEXIST` and
returns the state unchanged. -/
theorem C3_reinit_eexist_witness :
    occlum_ecall_init false .null (.utf8 "/elsewhere")
        { hasInit := true, instanceDir := "/occlum",
          enclavePath := "/occlum/build/lib/libocclum-libos.signed.so",
          logConfig := some .Off } =
      some (ecall_errno .EEXIST,
        { hasInit := true, instanceDir := "/occlum",
          enclavePath := "/occlum/build/lib/libocclum-libos.signed.so",
          logConfig := some .Off }) :=
  C3_reinit_eexist true (.utf8 "off") (.utf8 "/occlum") GatewayState.initial
    { hasInit := true, instanceDir := "/occlum",
      enclavePath := "/occlum/build/lib/libocclum-libos.signed.so",
      logConfig := some .Off }
    (by decide) false .null (.utf8 "/elsewhere")

/-- C4: after successful initialization, whenever the wrapped operation
(bootstrap for `new_process`, thread execution plus filesystem sync for
`exec_thread`) raises an internal fault (a panic), the ECall returns exactly
`-EFAULT`; in the model the catch-unwind boundary is total, so no unwind
escapes. -/
theorem C4_fault_containment
    (spawn : String → List String → HostStdioFds → Outcome Nat)
    (entry_points : List String) (path_buf : HostString)
    (argv : List HostString) (stdio_from_user : Except Errno HostStdioFds)
    (exec : Int → Int → Outcome Int) (sync : Outcome Unit)
    (libos_pid host_tid : Int) (st : GatewayState)
    (p : String) (args : List String) (fds : HostStdioFds)
    (h : st.hasInit = true)
    (hparse : parse_arguments path_buf argv stdio_from_user =
      .ok (p, args, fds))
    (hboot : do_new_process entry_points spawn p args fds = .fault)
    (hexec : do_exec_thread exec sync libos_pid host_tid = .fault) :
    occlum_ecall_new_process spawn entry_points path_buf argv stdio_from_user
        st = ecall_errno .EFAULT ∧
    occlum_ecall_exec_thread exec sync libos_pid host_tid st =
      ecall_errno .EFAULT := by
  constructor
  · unfold occlum_ecall_new_process
    simp [h, hparse, hboot]
  · unfold occlum_ecall_exec_thread
    simp [h, hexec]

/-- C4 witness: a spawn primitive and a task executor that panic, behind an
initialized gateway with valid arguments, both surface as `-EFAULT`. -/
theorem C4_fault_containment_witness :
    occlum_ecall_new_process (fun _ _ _ => .fault) ["/bin"] (.utf8 "/bin/sh")
        [.utf8 "-l"] (.ok ⟨0, 1, 2⟩)
        { hasInit := true, instanceDir := "/occlum",
          enclavePath := "/occlum/build/lib/libocclum-libos.signed.so",
          logConfig := some .Off } = ecall_errno .EFAULT ∧
    occlum_ecall_exec_thread (fun _ _ => .fault) (.ok ()) 5 77
        { hasInit := true, instanceDir := "/occlum",
          enclavePath := "/occlum/build/lib/libocclum-libos.signed.so",
          logConfig := some .Off } = ecall_errno .EFAULT :=
  C4_fault_containment (fun _ _ _ => .fault) ["/bin"] (.utf8 "/bin/sh")
    [.utf8 "-l"] (.ok ⟨0, 1, 2⟩) (fun _ _ => .fault) (.ok ()) 5 77
    { hasInit := true, instanceDir := "/occlum",
      enclavePath := "/occlum/build/lib/libocclum-libos.signed.so",
      logConfig := some .Off }
    "/bin/sh" ["sh", "-l"] ⟨0, 1, 2⟩ (by decide) (by decide) (by decide)
    (by decide)

/-- C5: `parse_log_level` maps the host string case-insensitively —
`off` to `Off`; `panic`, `fatal`, `error` to `Error`; `warning`, `warn` to
`Warn`; `info` to `Info`; `debug` to `Debug`; `trace` to `Trace`; any other
valid UTF-8 string, or a null pointer, to `Off` rather than an error. -/
theorem C5_log_level_map :
    parse_log_level .null = .ok .Off ∧
    (∀ s : String, lowerString s = "off" →
      parse_log_level (.utf8 s) = .ok .Off) ∧
    (∀ s : String,
      lowerString s = "panic" ∨ lowerString s = "fatal" ∨
        lowerString s = "error" →
      parse_log_level (.utf8 s) = .ok .Error) ∧
    (∀ s : String, lowerString s = "warning" ∨ lowerString s = "warn" →
      parse_log_level (.utf8 s) = .ok .Warn) ∧
    (∀ s : String, lowerString s = "info" →
      parse_log_level (.utf8 s) = .ok .Info) ∧
    (∀ s : String, lowerString s = "debug" →
      parse_log_level (.utf8 s) = .ok .Debug) ∧
    (∀ s : String, lowerString s = "trace" →
      parse_log_level (.utf8 s) = .ok .Trace) ∧
    (∀ s : String,
      lowerString s ∉ (["off", "panic", "fatal", "error", "warning", "warn",
        "info", "debug", "trace"] : List String) →
      parse_log_level (.utf8 s) = .ok .Off) := by
  refine ⟨rfl, ?_, ?_, ?_, ?_, ?_, ?_, ?_⟩
  · intro s h
    simp [parse_log_level, levelFromString, h]
  · rintro s (h | h | h) <;> simp [parse_log_level, levelFromString, h]
  · rintro s (h | h) <;> simp [parse_log_level, levelFromString, h]
  · intro s h
    simp [parse_log_level, levelFromString, h]
  · intro s h
    simp [parse_log_level, levelFromString, h]
  · intro s h
    simp [parse_log_level, levelFromString, h]
  · intro s h
    have hne : ∀ x ∈ (["off", "panic", "fatal", "error", "warning", "warn",
        "info", "debug", "trace"] : List String), lowerString s ≠ x :=
      fun x hx he => h (he ▸ hx)
    simp [parse_log_level, levelFromString,
      hne "off" (by decide), hne "panic" (by decide), hne "fatal" (by decide),
      hne "error" (by decide), hne "warning" (by decide),
      hne "warn" (by decide), hne "info" (by decide),
      hne "debug" (by decide), hne "trace" (by decide)]

/-- C5 witness: one representative per mapping class, in mixed case, plus an
unknown string and the null pointer. -/
theorem C5_log_level_map_witness :
    parse_log_level .null = .ok .Off ∧
    parse_log_level (.utf8 "OFF") = .ok .Off ∧
    parse_log_level (.utf8 "Fatal") = .ok .Error ∧
    parse_log_level (.utf8 "Warning") = .ok .Warn ∧
    parse_log_level (.utf8 "info") = .ok .Info ∧
    parse_log_level (.utf8 "Debug") = .ok .Debug ∧
    parse_log_level (.utf8 "TRACE") = .ok .Trace ∧
    parse_log_level (.utf8 "verbose") = .ok .Off :=
  ⟨C5_log_level_map.1,
   C5_log_level_map.2.1 "OFF" (by decide),
   C5_log_level_map.2.2.1 "Fatal" (Or.inr (Or.inl (by decide))),
   C5_log_level_map.2.2.2.1 "Warning" (Or.inl (by decide)),
   C5_log_level_map.2.2.2.2.1 "info" (by decide),
   C5_log_level_map.2.2.2.2.2.1 "Debug" (by decide),
   C5_log_level_map.2.2.2.2.2.2.1 "TRACE" (by decide),
   C5_log_level_map.2.2.2.2.2.2.2 "verbose" (by decide)⟩

/-- C6: for every accepted log-level string, when the debug-capability probe
reports debug disallowed the verbosity recorded by `occlum_ecall_init` is
`Off` regardless of the request, and when debug is allowed it equals the
parsed requested level. -/
theorem C6_effective_log_level (log_level : HostString) (dir : String)
    (st : GatewayState) (lvl : LevelFilter)
    (h0 : st.hasInit = false) (hp : parse_log_level log_level = .ok lvl) :
    occlum_ecall_init false log_level (.utf8 dir) st =
      some (0,
        { hasInit := true, instanceDir := dir,
          enclavePath := dir ++ "/build/lib/libocclum-libos.signed.so",
          logConfig := some .Off }) ∧
    occlum_ecall_init true log_level (.utf8 dir) st =
      some (0,
        { hasInit := true, instanceDir := dir,
          enclavePath := dir ++ "/build/lib/libocclum-libos.signed.so",
          logConfig := some lvl }) := by
  unfold occlum_ecall_init
  simp [h0, hp]

/-- C6 witness: a request for `trace` verbosity ends up `Off` on a
non-debug platform and `Trace` on a debug-capable one. -/
theorem C6_effective_log_level_witness :
    occlum_ecall_init false (.utf8 "trace") (.utf8 "/occlum")
        GatewayState.initial =
      some (0,
        { hasInit := true, instanceDir := "/occlum",
          enclavePath := "/occlum/build/lib/libocclum-libos.signed.so",
          logConfig := some .Off }) ∧
    occlum_ecall_init true (.utf8 "trace") (.utf8 "/occlum")
        GatewayState.initial =
      some (0,
        { hasInit := true, instanceDir := "/occlum",
          enclavePath := "/occlum/build/lib/libocclum-libos.signed.so",
          logConfig := some .Trace }) := by
  have h := C6_effective_log_level (.utf8 "trace") "/occlum"
    GatewayState.initial .Trace (by decide) (by decide)
  simpa using h

/-- C7: for a well-formed host argument vector of `N` UTF-8 strings and a
program path with a file-name component, `parse_arguments` succeeds and the
produced argument list is exactly the file-name component consed onto the
host strings in their original order, hence of length `N + 1` with element
`0` the program name and elements `1..N+1` the originals. -/
theorem C7_argument_marshaling (p prog : String) (argvS : List String)
    (fds : HostStdioFds) (hfn : fileName p = some prog) :
    parse_arguments (.utf8 p) (argvS.map .utf8) (.ok fds) =
      .ok (p, prog :: argvS, fds) ∧
    (prog :: argvS).length = argvS.length + 1 := by
  constructor
  · unfold parse_arguments
    simp [hfn, clone_cstrings_safely_utf8]
  · simp

/-- C7 witness: `/bin/busybox` with host arguments `["ls", "-l"]` marshals
to the 3-element list `["busybox", "ls", "-l"]`. -/
theorem C7_argument_marshaling_witness :
    parse_arguments (.utf8 "/bin/busybox")
        ([.utf8 "ls", .utf8 "-l"] : List HostString) (.ok ⟨0, 1, 2⟩) =
      .ok ("/bin/busybox", ["busybox", "ls", "-l"], ⟨0, 1, 2⟩) ∧
    (["busybox", "ls", "-l"] : List String).length = 2 + 1 :=
  C7_argument_marshaling "/bin/busybox" "busybox" ["ls", "-l"] ⟨0, 1, 2⟩
    (by decide)

/-- C8: after init, when the task executor reports exit status `s` and the
root-filesystem sync succeeds, `exec_thread` returns exactly `s`,
uninterpreted; the sync is really forced: a failing sync changes the result
to its own negated errno instead of `s`. -/
theorem C8_exit_status_passthrough (exec : Int → Int → Outcome Int)
    (libos_pid host_tid s : Int) (st : GatewayState) (e : Errno)
    (h : st.hasInit = true) (hexec : exec libos_pid host_tid = .ok s) :
    occlum_ecall_exec_thread exec (.ok ()) libos_pid host_tid st = s ∧
    occlum_ecall_exec_thread exec (.err e) libos_pid host_tid st =
      ecall_errno e := by
  constructor
  · unfold occlum_ecall_exec_thread do_exec_thread
    simp [h, hexec]
  · unfold occlum_ecall_exec_thread do_exec_thread
    simp [h, hexec]

/-- C8 witness: a raw wait-encoded status `139` comes back verbatim, and the
same call with a failing sync reports `-ENOMEM` instead. -/
theorem C8_exit_status_passthrough_witness :
    occlum_ecall_exec_thread (fun _ _ => .ok 139) (.ok ()) 5 77
        { hasInit := true, instanceDir := "/occlum",
          enclavePath := "/occlum/build/lib/libocclum-libos.signed.so",
          logConfig := some .Off } = 139 ∧
    occlum_ecall_exec_thread (fun _ _ => .ok 139) (.err .ENOMEM) 5 77
        { hasInit := true, instanceDir := "/occlum",
          enclavePath := "/occlum/build/lib/libocclum-libos.signed.so",
          logConfig := some .Off } = ecall_errno .ENOMEM :=
  C8_exit_status_passthrough (fun _ _ => .ok 139) 5 77 139
    { hasInit := true, instanceDir := "/occlum",
      enclavePath := "/occlum/build/lib/libocclum-libos.signed.so",
      logConfig := some .Off } .ENOMEM (by decide) (by decide)

/-- C9 fails as stated: the success value is the `u32` pid reinterpreted by
`as i32`, so a successful spawn whose pid is `2^31` makes `new_process`
return `-2^31`, a strictly negative value, on a succeeding call — the sign
of the return does not separate success from failure for pids at or above
`2^31`. Here every argument is valid, the path passes the gate, and the
spawn primitive succeeds with pid `2147483648`. -/
theorem C9_counterexample :
    occlum_ecall_new_process (fun _ _ _ => .ok 2147483648) ["/bin"]
        (.utf8 "/bin/sh") [] (.ok ⟨0, 1, 2⟩)
        { hasInit := true, instanceDir := "/occlum",
          enclavePath := "/occlum/build/lib/libocclum-libos.signed.so",
          logConfig := some .Off } = -2147483648 ∧
    (-2147483648 : Int) < 0 := by
  constructor
  · decide
  · decide

/-- `as i32` is the identity on values below `2^31`. -/
theorem i32OfU32_of_lt (n : Nat) (h : n < 2147483648) :
    i32OfU32 n = (n : Int) := by
  unfold i32OfU32
  rw [Nat.mod_eq_of_lt (by omega), if_pos (by omega)]

/-- C9 amended: every failure of `new_process` returns a negated POSIX errno,
which is strictly negative; a successful call returns the new pid cast to
`i32`, which equals the pid — and is therefore non-negative — whenever the
pid is below `2^31` (the unamended universal non-negativity fails at
pid `2^31`, see the counterexample). -/
theorem C9_status_encoding
    (spawn : String → List String → HostStdioFds → Outcome Nat)
    (entry_points : List String) (path_buf : HostString)
    (argv : List HostString) (stdio_from_user : Except Errno HostStdioFds)
    (st : GatewayState) (p : String) (args : List String)
    (fds : HostStdioFds) (pid : Nat) (e : Errno)
    (h : st.hasInit = true)
    (hparse : parse_arguments path_buf argv stdio_from_user =
      .ok (p, args, fds))
    (hval : validate_program_path entry_points p = .ok ())
    (hspawn : spawn p args fds = .ok pid)
    (hpid : pid < 2147483648) :
    occlum_ecall_new_process spawn entry_points path_buf argv stdio_from_user
        st = (pid : Int) ∧
    0 ≤ (pid : Int) ∧
    ecall_errno e < 0 := by
  refine ⟨?_, Int.ofNat_nonneg pid, ecall_errno_neg e⟩
  unfold occlum_ecall_new_process do_new_process
  simp [h, hparse, hval, hspawn, i32OfU32_of_lt pid hpid]

/-- C9 amended witness: a successful spawn with pid `42` behind valid
arguments returns exactly `42`. -/
theorem C9_status_encoding_witness :
    occlum_ecall_new_process (fun _ _ _ => .ok 42) ["/bin"] (.utf8 "/bin/sh")
        [.utf8 "-l"] (.ok ⟨0, 1, 2⟩)
        { hasInit := true, instanceDir := "/occlum",
          enclavePath := "/occlum/build/lib/libocclum-libos.signed.so",
          logConfig := some .Off } = (42 : Nat) ∧
    0 ≤ ((42 : Nat) : Int) ∧
    ecall_errno .EACCES < 0 :=
  C9_status_encoding (fun _ _ _ => .ok 42) ["/bin"] (.utf8 "/bin/sh")
    [.utf8 "-l"] (.ok ⟨0, 1, 2⟩)
    { hasInit := true, instanceDir := "/occlum",
      enclavePath := "/occlum/build/lib/libocclum-libos.signed.so",
      logConfig := some .Off }
    "/bin/sh" ["sh", "-l"] ⟨0, 1, 2⟩ 42 .EACCES (by decide) (by decide)
    (by decide) (by decide) (by decide)

/-- C10: an `occlum_ecall_init` that fails on a non-UTF-8 log-level string
returns `-EINVAL` and leaves the gateway state untouched — the readiness
flag stays false, so `new_process` and `exec_thread` still answer `-EAGAIN`
from that state, and a later `init` with parsable arguments still succeeds
(so `-EEXIST` arises only after a successful init). -/
theorem C10_failed_init_recoverable (allowDebug : Bool) (dir : String)
    (st : GatewayState)
    (spawn : String → List String → HostStdioFds → Outcome Nat)
    (entry_points : List String) (path_buf : HostString)
    (argv : List HostString) (stdio_from_user : Except Errno HostStdioFds)
    (exec : Int → Int → Outcome Int) (sync : Outcome Unit)
    (libos_pid host_tid : Int)
    (log_level2 : HostString) (lvl : LevelFilter) (dir2 : String)
    (h : st.hasInit = false)
    (hp2 : parse_log_level log_level2 = .ok lvl) :
    occlum_ecall_init allowDebug .invalidUtf8 (.utf8 dir) st =
      some (ecall_errno .EINVAL, st) ∧
    occlum_ecall_new_process spawn entry_points path_buf argv stdio_from_user
        st = ecall_errno .EAGAIN ∧
    occlum_ecall_exec_thread exec sync libos_pid host_tid st =
      ecall_errno .EAGAIN ∧
    occlum_ecall_init true log_level2 (.utf8 dir2) st =
      some (0,
        { hasInit := true, instanceDir := dir2,
          enclavePath := dir2 ++ "/build/lib/libocclum-libos.signed.so",
          logConfig := some lvl }) := by
  refine ⟨?_, ?_, ?_, ?_⟩
  · unfold occlum_ecall_init
    simp [h, parse_log_level]
  · unfold occlum_ecall_new_process
    simp [h]
  · unfold occlum_ecall_exec_thread
    simp [h]
  · unfold occlum_ecall_init
    simp [h, hp2]

/-- C10 witness: the whole recovery scenario from the fresh gateway state
with concrete arguments. -/
theorem C10_failed_init_recoverable_witness :
    occlum_ecall_init false .invalidUtf8 (.utf8 "/occlum")
        GatewayState.initial =
      some (ecall_errno .EINVAL, GatewayState.initial) ∧
    occlum_ecall_new_process (fun _ _ _ => .ok 5) ["/bin"] (.utf8 "/bin/sh")
        [] (.ok ⟨0, 1, 2⟩) GatewayState.initial = ecall_errno .EAGAIN ∧
    occlum_ecall_exec_thread (fun _ _ => .ok 0) (.ok ()) 5 77
        GatewayState.initial = ecall_errno .EAGAIN ∧
    occlum_ecall_init true (.utf8 "error") (.utf8 "/occlum")
        GatewayState.initial =
      some (0,
        { hasInit := true, instanceDir := "/occlum",
          enclavePath := "/occlum/build/lib/libocclum-libos.signed.so",
          logConfig := some .Error }) := by
  have h := C10_failed_init_recoverable false "/occlum" GatewayState.initial
    (fun _ _ _ => .ok 5) ["/bin"] (.utf8 "/bin/sh") [] (.ok ⟨0, 1, 2⟩)
    (fun _ _ => .ok 0) (.ok ()) 5 77 (.utf8 "error") .Error "/occlum"
    (by decide) (by decide)
  simpa using h

end Occlum
